import Mathlib

/-!
Verification of the baccarat engine in `baccarat.py`: cards, shoe,
hands, and the Player/Bank third-card rules, embedded shallowly in Lean.

Python-specific behaviour that the claims depend on is embedded
explicitly:
* `sum(self._cards)` dispatches to `Card.__radd__`, which reduces mod 10
  at every step, so `Hand.value` is a left fold of
  `fun acc c => (c.value + acc) % 10` over the hand starting from 0;
* `Bank.third_card`'s `if player_third_card:` tests Python truthiness,
  not `is not None`; a `Card` instance is always truthy (the class
  defines neither `__bool__` nor `__len__`), `None` is falsy, and an
  arbitrary non-Card argument may be truthy or falsy, which `PyArg`
  records;
* `Card` defines no `__eq__`, so `==` on cards falls back to object
  identity, which `PyCardInstance`/`pyCardEq` model by tagging each
  instance with its object id.
-/

/-- The four suits, the closed enumeration behind the Python `SUITS` list. -/
inductive Suit where
  | hearts
  | spades
  | clubs
  | diamonds
deriving DecidableEq, Repr

/-- The thirteen ranks, the closed enumeration behind the Python `RANKS`
list (`'ace'`, the integers 2..10, `'jack'`, `'queen'`, `'king'`). -/
inductive Rank where
  | ace
  | two
  | three
  | four
  | five
  | six
  | seven
  | eight
  | nine
  | ten
  | jack
  | queen
  | king
deriving DecidableEq, Repr

/-- A playing card: a rank/suit pair (`Card.__init__` after its
validation of rank and suit, which the closed enumerations make
unrepresentable here). -/
structure Card where
  rank : Rank
  suit : Suit
deriving DecidableEq, Repr

/-- `Card.value`: ranks 2..9 (the Python `range(2, 10)` test) are worth
their number, ace is worth 1, and everything else (10, jack, queen,
king) is worth 0. -/
def Card.value (c : Card) : Nat :=
  match c.rank with
  | .two => 2
  | .three => 3
  | .four => 4
  | .five => 5
  | .six => 6
  | .seven => 7
  | .eight => 8
  | .nine => 9
  | .ace => 1
  | .ten => 0
  | .jack => 0
  | .queen => 0
  | .king => 0

/-- `Hand.value`, i.e. Python `sum(self._cards)`: the built-in `sum`
folds from the left starting at 0, and each step dispatches to
`Card.__radd__`, which computes `(self.value + other) % 10`. -/
def Hand.value (cards : List Card) : Nat :=
  cards.foldl (fun acc c => (c.value + acc) % 10) 0

/-- The order of `SUITS` in `baccarat.py`. -/
def SUITS : List Suit := [.hearts, .spades, .clubs, .diamonds]

/-- The order of `RANKS` in `baccarat.py`. -/
def RANKS : List Rank :=
  [.ace, .two, .three, .four, .five, .six, .seven, .eight, .nine, .ten,
   .jack, .queen, .king]

/-- The errors the engine raises: `TypeError('Not a valid Card type')` /
`TypeError('Player third card not a Card type object.')`. -/
inductive Err where
  | typeError
deriving DecidableEq, Repr

/-- A Python value passed as `Bank.third_card`'s `player_third_card`
argument: `None` (the default), a `Card` instance, or any other object.
`Card` defines neither `__bool__` nor `__len__`, so every `Card`
instance is truthy; a non-Card object carries its own truthiness
(e.g. `0`, `False`, `''`, `[]` are falsy, most objects are truthy). -/
inductive PyArg where
  | none
  | card (c : Card)
  | nonCard (truthy : Bool)
deriving DecidableEq, Repr

/-- Python truthiness of a `PyArg`, deciding `if player_third_card:`. -/
def PyArg.isTruthy : PyArg → Bool
  | .none => false
  | .card _ => true
  | .nonCard t => t

/-- `Player.third_card`: true iff `0 <= self.value <= 5`. -/
def Player.third_card (cards : List Card) : Bool :=
  if 0 ≤ Hand.value cards ∧ Hand.value cards ≤ 5 then true else false

/-- The `third_card_rules` dict in `Bank.third_card`; a missing key
raises `KeyError`, modelled by `Option.none`. -/
def third_card_rules : Nat → Option (List Nat)
  | 3 => some [0, 1, 2, 3, 4, 5, 6, 7, 9]
  | 4 => some [2, 3, 4, 5, 6, 7]
  | 5 => some [4, 5, 6, 7]
  | 6 => some [6, 7]
  | _ => Option.none

/-- `Bank.third_card`.  The Python body: when the bank holds two cards,
`if player_third_card:` (truthiness!) asserts the argument is a `Card`
(raising `TypeError` otherwise), auto-draws on value 0..2, then looks
the bank value up in `third_card_rules` (a `KeyError` — value 7, 8 or
9 — is caught and yields `False`) and draws iff the player third card's
value is in the row; when the argument is falsy it draws iff the bank
value is 0..5; with a card count other than 2 it returns `False`. -/
def Bank.third_card (cards : List Card) (player_third_card : PyArg) :
    Except Err Bool :=
  if cards.length = 2 then
    if player_third_card.isTruthy then
      match player_third_card with
      | .card c =>
        if 0 ≤ Hand.value cards ∧ Hand.value cards ≤ 2 then .ok true
        else
          match third_card_rules (Hand.value cards) with
          | some row => if c.value ∈ row then .ok true else .ok false
          | Option.none => .ok false
      | _ => .error .typeError
    else
      if 0 ≤ Hand.value cards ∧ Hand.value cards ≤ 5 then .ok true
      else .ok false
  else .ok false

/-- An element of the list handed to `Hand.add_cards`: a `Card`
instance or any other object (which fails the `isinstance` assert). -/
inductive PyVal where
  | card (c : Card)
  | other
deriving DecidableEq, Repr

/-- `Hand.add_cards`: walks the argument list, asserting each element is
a `Card` and appending it to `self._cards`; the first non-Card raises
`TypeError` and the loop stops, leaving the cards appended so far in the
hand.  Returns the hand's final card list and the raised error, if any. -/
def Hand.add_cards (hand : List Card) : List PyVal → List Card × Option Err
  | [] => (hand, Option.none)
  | .card c :: rest => Hand.add_cards (hand ++ [c]) rest
  | .other :: _ => (hand, some .typeError)

/-- A `Card` instance as a Python object: `Card` defines no `__eq__`,
so `==` falls back to the default object identity; `oid` is the
instance's identity (`id()`), distinct for distinct live instances. -/
structure PyCardInstance where
  oid : Nat
  rank : Rank
  suit : Suit
deriving DecidableEq, Repr

/-- Python `==` on two `Card` instances: with no `__eq__` defined on the
class, it is object identity. -/
def pyCardEq (a b : PyCardInstance) : Bool :=
  a.oid == b.oid

/-- `Shoe`: the deck count fixed at construction and the current mutable
pool of cards (`self._cards`), drawn from the end by `list.pop()`. -/
structure Shoe where
  num_decks : Nat
  cards : List Card
deriving DecidableEq, Repr

/-- One pass of the loop body of `add_decks` for a single deck: all 52
rank/suit combinations, suits outer, ranks inner. -/
def one_deck : List Card :=
  SUITS.flatMap fun s => RANKS.map fun r => Card.mk r s

/-- The card pool built by `Shoe.add_decks` before `random.shuffle`:
`num_decks` copies of a full deck. -/
def full_deck (num_decks : Nat) : List Card :=
  (List.range num_decks).flatMap fun _ => one_deck

/-- `Shoe.draw_cards`, run with an explicit supply of shuffled decks:
`fill j` is the pool installed by the `j`-th `add_decks` refill during
this call (`random.shuffle` only permutes the `full_deck` pool, so any
`fill` with `(fill j).length = 52 * num_decks` is a possible outcome).
For each card requested, if the pool is empty it is refilled first, then
the last card is popped.  Returns the cards in draw order, the final
shoe and the number of refills performed. -/
def draw_cards (fill : Nat → List Card) :
    Shoe → Nat → Nat → List Card × Shoe × Nat
  | s, _, 0 => ([], s, 0)
  | s, j, num_cards + 1 =>
    if s.cards.isEmpty then
      let pool := fill j
      let r := draw_cards fill ⟨s.num_decks, pool.dropLast⟩ (j + 1) num_cards
      (pool.getLastD ⟨.ace, .hearts⟩ :: r.1, r.2.1, r.2.2 + 1)
    else
      let r := draw_cards fill ⟨s.num_decks, s.cards.dropLast⟩ j num_cards
      (s.cards.getLastD ⟨.ace, .hearts⟩ :: r.1, r.2.1, r.2.2)

example : Hand.value [⟨.seven, .hearts⟩, ⟨.nine, .spades⟩] = 6 := by decide
example : Card.value ⟨.ten, .clubs⟩ = 0 := by decide
example : one_deck.length = 52 := by decide
example : Bank.third_card [⟨.two, .hearts⟩, ⟨.ace, .spades⟩]
    (.card ⟨.eight, .clubs⟩) = .ok false := by rfl
example : Bank.third_card [⟨.two, .hearts⟩, ⟨.ace, .spades⟩]
    (.card ⟨.nine, .clubs⟩) = .ok true := by rfl
example : Bank.third_card [⟨.five, .hearts⟩, ⟨.two, .spades⟩]
    (.nonCard false) = .ok false := by rfl
example :
    (draw_cards (fun _ => full_deck 1) ⟨1, full_deck 1⟩ 0 60).2.1.cards.length
      = 44 := by decide
example :
    (draw_cards (fun _ => full_deck 1) ⟨1, full_deck 1⟩ 0 60).2.2 = 1 := by
  decide

/-! ## Helper lemmas -/

/-- Folding the `__radd__` step over a list starting from a reduced
accumulator yields the plain sum reduced mod 10. -/
lemma hand_foldl_mod (l : List Card) :
    ∀ a : Nat, a < 10 →
      l.foldl (fun acc c => (c.value + acc) % 10) a
        = (a + (l.map Card.value).sum) % 10 := by
  induction l with
  | nil =>
    intro a ha
    simp [Nat.mod_eq_of_lt ha]
  | cons c t ih =>
    intro a ha
    have h10 : (c.value + a) % 10 < 10 := Nat.mod_lt _ (by decide)
    simp only [List.foldl_cons, List.map_cons, List.sum_cons]
    rw [ih _ h10, Nat.mod_add_mod]
    omega

/-- `Hand.value` is the sum of card values mod 10. -/
lemma hand_value_eq_sum_mod (l : List Card) :
    Hand.value l = (l.map Card.value).sum % 10 := by
  have h := hand_foldl_mod l 0 (by decide)
  simpa [Hand.value] using h

/-- `Hand.value` is always at most 9. -/
lemma hand_value_le_nine (l : List Card) : Hand.value l ≤ 9 := by
  have h := hand_value_eq_sum_mod l
  have : (l.map Card.value).sum % 10 < 10 := Nat.mod_lt _ (by decide)
  omega

/-- With a 2-card bank and a `Card` argument, `Bank.third_card` takes
the truthy/`isinstance`-passing branch. -/
lemma bank_card_branch (cards : List Card) (c : Card)
    (h2 : cards.length = 2) :
    Bank.third_card cards (.card c)
      = (if 0 ≤ Hand.value cards ∧ Hand.value cards ≤ 2 then .ok true
         else
           match third_card_rules (Hand.value cards) with
           | some row => if c.value ∈ row then Except.ok true else .ok false
           | Option.none => .ok false) := by
  simp [Bank.third_card, PyArg.isTruthy, h2]

/-! ## Claim theorems -/

/-- C7: for every hand, `value()` is the sum of the cards' baccarat
values reduced mod 10 and lies in 0..9, where the baccarat value of a
card is 1 for an ace, the numeric rank for 2..9, and 0 for 10, jack,
queen and king. -/
theorem hand_value_spec :
    (∀ cards : List Card,
        Hand.value cards = (cards.map Card.value).sum % 10
          ∧ Hand.value cards ≤ 9)
    ∧ (∀ s : Suit,
        Card.value ⟨.ace, s⟩ = 1
          ∧ Card.value ⟨.two, s⟩ = 2 ∧ Card.value ⟨.three, s⟩ = 3
          ∧ Card.value ⟨.four, s⟩ = 4 ∧ Card.value ⟨.five, s⟩ = 5
          ∧ Card.value ⟨.six, s⟩ = 6 ∧ Card.value ⟨.seven, s⟩ = 7
          ∧ Card.value ⟨.eight, s⟩ = 8 ∧ Card.value ⟨.nine, s⟩ = 9
          ∧ Card.value ⟨.ten, s⟩ = 0 ∧ Card.value ⟨.jack, s⟩ = 0
          ∧ Card.value ⟨.queen, s⟩ = 0 ∧ Card.value ⟨.king, s⟩ = 0) := by
  constructor
  · intro cards
    exact ⟨hand_value_eq_sum_mod cards, hand_value_le_nine cards⟩
  · intro s
    refine ⟨rfl, rfl, rfl, rfl, rfl, rfl, rfl, rfl, rfl, rfl, rfl, rfl, rfl⟩

/-- C6: for a 2-card player hand, `needs_third_card` is true iff the
hand's value is in 0..5 and false iff it is in 6..9. -/
theorem player_third_card_spec (cards : List Card)
    (h2 : cards.length = 2) :
    (Player.third_card cards = true ↔ Hand.value cards ≤ 5)
      ∧ (Player.third_card cards = false
          ↔ (6 ≤ Hand.value cards ∧ Hand.value cards ≤ 9)) := by
  have h9 := hand_value_le_nine cards
  simp only [Player.third_card]
  split_ifs with h
  · simp
    omega
  · simp
    omega

/-- C6 witness: a player hand of value 5 draws. -/
theorem player_third_card_spec_witness :
    (Player.third_card [⟨.two, .hearts⟩, ⟨.three, .spades⟩] = true
        ↔ Hand.value [⟨.two, .hearts⟩, ⟨.three, .spades⟩] ≤ 5)
      ∧ (Player.third_card [⟨.two, .hearts⟩, ⟨.three, .spades⟩] = false
          ↔ (6 ≤ Hand.value [⟨.two, .hearts⟩, ⟨.three, .spades⟩]
              ∧ Hand.value [⟨.two, .hearts⟩, ⟨.three, .spades⟩] ≤ 9)) :=
  player_third_card_spec [⟨.two, .hearts⟩, ⟨.three, .spades⟩] (by decide)

/-- C3: for a 2-card bank hand queried with no player third card
(`None`, the default), `needs_third_card` is true iff the bank's value
is in 0..5, and false for values 6..9. -/
theorem bank_no_third_card_spec (cards : List Card)
    (h2 : cards.length = 2) :
    (Bank.third_card cards .none = .ok true ↔ Hand.value cards ≤ 5)
      ∧ (6 ≤ Hand.value cards →
          Bank.third_card cards .none = .ok false) := by
  simp only [Bank.third_card, PyArg.isTruthy, h2, if_true, Bool.false_eq_true,
    if_false, reduceIte]
  split_ifs with h
  · simp
    omega
  · simp
    omega

/-- C3 witness: a bank of value 1 with no player third card draws. -/
theorem bank_no_third_card_spec_witness :
    (Bank.third_card [⟨.ten, .hearts⟩, ⟨.ace, .spades⟩] .none = .ok true
        ↔ Hand.value [⟨.ten, .hearts⟩, ⟨.ace, .spades⟩] ≤ 5)
      ∧ (6 ≤ Hand.value [⟨.ten, .hearts⟩, ⟨.ace, .spades⟩] →
          Bank.third_card [⟨.ten, .hearts⟩, ⟨.ace, .spades⟩] .none
            = .ok false) :=
  bank_no_third_card_spec [⟨.ten, .hearts⟩, ⟨.ace, .spades⟩] (by decide)

/-- C2: a 2-card bank hand of value 0..2 always draws, both with a
player third card supplied and without one. -/
theorem bank_low_value_spec (cards : List Card) (h2 : cards.length = 2)
    (hv : Hand.value cards ≤ 2) :
    Bank.third_card cards .none = .ok true
      ∧ ∀ c : Card, Bank.third_card cards (.card c) = .ok true := by
  constructor
  · simp [Bank.third_card, PyArg.isTruthy, h2]
    omega
  · intro c
    rw [bank_card_branch cards c h2, if_pos ⟨Nat.zero_le _, hv⟩]

/-- C2 witness: a bank of value 2 draws with and without a player third
card. -/
theorem bank_low_value_spec_witness :
    Bank.third_card [⟨.king, .hearts⟩, ⟨.two, .spades⟩] .none = .ok true
      ∧ ∀ c : Card,
          Bank.third_card [⟨.king, .hearts⟩, ⟨.two, .spades⟩] (.card c)
            = .ok true :=
  bank_low_value_spec [⟨.king, .hearts⟩, ⟨.two, .spades⟩] (by decide)
    (by decide)

/-- C5: a bank hand not holding exactly 2 cards never draws, whatever
the `player_third_card` argument is. -/
theorem bank_wrong_count_spec (cards : List Card)
    (h2 : cards.length ≠ 2) (p : PyArg) :
    Bank.third_card cards p = .ok false := by
  simp [Bank.third_card, h2]

/-- C5 witness: a 3-card bank never draws, for a card argument, `None`,
and a non-Card argument alike. -/
theorem bank_wrong_count_spec_witness :
    Bank.third_card [⟨.two, .hearts⟩, ⟨.two, .spades⟩, ⟨.two, .clubs⟩]
        (.card ⟨.four, .hearts⟩) = .ok false
      ∧ Bank.third_card [⟨.two, .hearts⟩, ⟨.two, .spades⟩, ⟨.two, .clubs⟩]
          .none = .ok false
      ∧ Bank.third_card [⟨.two, .hearts⟩, ⟨.two, .spades⟩, ⟨.two, .clubs⟩]
          (.nonCard true) = .ok false :=
  ⟨bank_wrong_count_spec _ (by decide) _,
   bank_wrong_count_spec _ (by decide) _,
   bank_wrong_count_spec _ (by decide) _⟩

/-- C4 counterexample: the falsy non-Card argument `0` (modelled as
`PyArg.nonCard false`) does not raise `InvalidCardType`; `if
player_third_card:` is a truthiness test, so the call falls into the
"absent" branch and returns a plain boolean. -/
theorem bank_noncard_counterexample :
    Bank.third_card [⟨.five, .hearts⟩, ⟨.two, .spades⟩]
        (PyArg.nonCard false) = .ok false
      ∧ Bank.third_card [⟨.five, .hearts⟩, ⟨.two, .spades⟩]
          (PyArg.nonCard false) ≠ .error .typeError := by
  refine ⟨rfl, ?_⟩
  intro h
  simp [Bank.third_card, PyArg.isTruthy, Hand.value, Card.value] at h

/-- C4 (amended): with a 2-card bank, a supplied non-Card argument
raises `InvalidCardType` only when it is truthy; a falsy non-Card is
treated exactly like an absent third card. -/
theorem bank_noncard_spec (cards : List Card) (h2 : cards.length = 2) :
    Bank.third_card cards (.nonCard true) = .error .typeError
      ∧ Bank.third_card cards (.nonCard false)
          = Bank.third_card cards .none := by
  constructor
  · simp [Bank.third_card, PyArg.isTruthy, h2]
  · simp [Bank.third_card, PyArg.isTruthy, h2]

/-- C4 witness: on a concrete 2-card bank, a truthy non-Card raises and
a falsy non-Card behaves like `None`. -/
theorem bank_noncard_spec_witness :
    Bank.third_card [⟨.five, .hearts⟩, ⟨.ace, .spades⟩] (.nonCard true)
        = .error .typeError
      ∧ Bank.third_card [⟨.five, .hearts⟩, ⟨.ace, .spades⟩]
          (.nonCard false)
          = Bank.third_card [⟨.five, .hearts⟩, ⟨.ace, .spades⟩] .none :=
  bank_noncard_spec [⟨.five, .hearts⟩, ⟨.ace, .spades⟩] (by decide)

/-- C1: for a 2-card bank hand and a supplied player third card, the
bank draws exactly per the tableau rows for values 3..6, and never
draws for values 7, 8, 9. -/
theorem bank_tableau_spec (cards : List Card) (c : Card)
    (h2 : cards.length = 2) :
    (Hand.value cards = 3 →
        (Bank.third_card cards (.card c) = .ok true
          ↔ c.value ∈ [0, 1, 2, 3, 4, 5, 6, 7, 9]))
      ∧ (Hand.value cards = 4 →
          (Bank.third_card cards (.card c) = .ok true
            ↔ c.value ∈ [2, 3, 4, 5, 6, 7]))
      ∧ (Hand.value cards = 5 →
          (Bank.third_card cards (.card c) = .ok true
            ↔ c.value ∈ [4, 5, 6, 7]))
      ∧ (Hand.value cards = 6 →
          (Bank.third_card cards (.card c) = .ok true
            ↔ c.value ∈ [6, 7]))
      ∧ ((Hand.value cards = 7 ∨ Hand.value cards = 8
            ∨ Hand.value cards = 9) →
          Bank.third_card cards (.card c) = .ok false) := by
  have hb := bank_card_branch cards c h2
  refine ⟨?_, ?_, ?_, ?_, ?_⟩
  · intro hv
    rw [hb, hv]
    norm_num [third_card_rules]
    tauto
  · intro hv
    rw [hb, hv]
    norm_num [third_card_rules]
    tauto
  · intro hv
    rw [hb, hv]
    norm_num [third_card_rules]
    tauto
  · intro hv
    rw [hb, hv]
    norm_num [third_card_rules]
    tauto
  · rintro (hv | hv | hv) <;> rw [hb, hv] <;> norm_num [third_card_rules]

/-- C1 witness: bank of value 3 stands against a player third card of
value 8 and draws against one of value 9. -/
theorem bank_tableau_spec_witness :
    ¬(Bank.third_card [⟨.two, .hearts⟩, ⟨.ace, .spades⟩]
        (.card ⟨.eight, .clubs⟩) = .ok true)
      ∧ Bank.third_card [⟨.two, .hearts⟩, ⟨.ace, .spades⟩]
          (.card ⟨.nine, .clubs⟩) = .ok true := by
  constructor
  · have h := (bank_tableau_spec [⟨.two, .hearts⟩, ⟨.ace, .spades⟩]
      ⟨.eight, .clubs⟩ (by decide)).1 (by decide)
    rw [h]
    decide
  · have h := (bank_tableau_spec [⟨.two, .hearts⟩, ⟨.ace, .spades⟩]
      ⟨.nine, .clubs⟩ (by decide)).1 (by decide)
    rw [h]
    decide

/-- C8 counterexample: two distinct `Card` instances with identical rank
and suit are not `==`-equal, because `Card` inherits object-identity
equality. -/
theorem card_eq_counterexample :
    (PyCardInstance.mk 0 .two .hearts).rank
        = (PyCardInstance.mk 1 .two .hearts).rank
      ∧ (PyCardInstance.mk 0 .two .hearts).suit
          = (PyCardInstance.mk 1 .two .hearts).suit
      ∧ pyCardEq (PyCardInstance.mk 0 .two .hearts)
          (PyCardInstance.mk 1 .two .hearts) = false := by
  decide

/-- C8 (amended): `==` on `Card` instances is object identity — true
iff the two operands are the same object — so cards sharing a baccarat
value are unequal when distinct, and so are distinct instances with
identical rank and suit. -/
theorem card_eq_identity_spec (a b : PyCardInstance) :
    (pyCardEq a b = true ↔ a.oid = b.oid)
      ∧ (pyCardEq a b = false ↔ a.oid ≠ b.oid) := by
  constructor
  · simp [pyCardEq]
  · simp [pyCardEq]

/-- C10: `add_cards` is not atomic — when the first non-Card sits after
`k` leading cards, the call raises the invalid-card-type error but the
`k` cards stay appended to the hand. -/
theorem add_cards_partial_spec (hand : List Card) (cs : List Card)
    (rest : List PyVal) :
    Hand.add_cards hand (cs.map PyVal.card ++ PyVal.other :: rest)
      = (hand ++ cs, some Err.typeError) := by
  induction cs generalizing hand with
  | nil => simp [Hand.add_cards]
  | cons c t ih =>
    simp only [List.map_cons, List.cons_append, Hand.add_cards,
      List.append_eq]
    rw [ih (hand ++ [c])]
    simp

/-- `draw_cards` always returns exactly the requested number of cards. -/
lemma draw_cards_length (fill : Nat → List Card) :
    ∀ (n : Nat) (s : Shoe) (j : Nat),
      (draw_cards fill s j n).1.length = n := by
  intro n
  induction n with
  | zero =>
    intro s j
    rfl
  | succ n ih =>
    intro s j
    rw [draw_cards]
    split
    · simp [ih]
    · simp [ih]

/-- Card conservation for `draw_cards`: when every refill installs a
pool of `D ≥ 1` cards, the cards remaining after the draw plus the
cards drawn equal the cards initially present plus `D` per refill. -/
lemma draw_cards_count (fill : Nat → List Card) (D : Nat) (hD : 1 ≤ D)
    (hfill : ∀ i, (fill i).length = D) :
    ∀ (n : Nat) (s : Shoe) (j : Nat),
      (draw_cards fill s j n).2.1.cards.length + n
        = s.cards.length + D * (draw_cards fill s j n).2.2 := by
  intro n
  induction n with
  | zero =>
    intro s j
    simp [draw_cards]
  | succ n ih =>
    intro s j
    rw [draw_cards]
    split
    all_goals rename_i hE
    all_goals dsimp only
    · have hempty : s.cards.length = 0 := by
        simpa [List.isEmpty_iff_length_eq_zero] using hE
      have ih' := ih ⟨s.num_decks, (fill j).dropLast⟩ (j + 1)
      simp only at ih'
      rw [List.length_dropLast, hfill j] at ih'
      simp only [Nat.mul_succ]
      set r := draw_cards fill ⟨s.num_decks, (fill j).dropLast⟩ (j + 1) n
        with hr
      set M := D * r.2.2 with hM
      omega
    · have hne : s.cards.length ≠ 0 := by
        simpa [List.isEmpty_iff_length_eq_zero] using hE
      have ih' := ih ⟨s.num_decks, s.cards.dropLast⟩ j
      simp only at ih'
      rw [List.length_dropLast] at ih'
      set r := draw_cards fill ⟨s.num_decks, s.cards.dropLast⟩ j n with hr
      set M := D * r.2.2 with hM
      omega

/-- Drawing more cards than currently remain forces at least one
refill. -/
lemma draw_cards_refill (fill : Nat → List Card) :
    ∀ (n : Nat) (s : Shoe) (j : Nat),
      s.cards.length < n → 1 ≤ (draw_cards fill s j n).2.2 := by
  intro n
  induction n with
  | zero =>
    intro s j h
    omega
  | succ n ih =>
    intro s j h
    rw [draw_cards]
    split
    all_goals rename_i hE
    · simp
    · have hne : s.cards.length ≠ 0 := by
        simpa [List.isEmpty_iff_length_eq_zero] using hE
      have h' : (⟨s.num_decks, s.cards.dropLast⟩ : Shoe).cards.length < n := by
        simp only [List.length_dropLast]
        omega
      simpa using ih ⟨s.num_decks, s.cards.dropLast⟩ j h'

/-- C9 (amended): `draw(n)` always returns exactly `n` cards (`n = 0`
an empty sequence), refills whenever the pool is empty before a pop,
drawing more cards than remain triggers at least one refill, and
afterwards the remaining count equals the count remaining before the
draw plus `deck_count × 52 × refills − n`. -/
theorem shoe_draw_spec (fill : Nat → List Card) (s : Shoe) (n : Nat)
    (hdecks : 1 ≤ s.num_decks)
    (hfill : ∀ i, (fill i).length = 52 * s.num_decks) :
    (draw_cards fill s 0 n).1.length = n
      ∧ (draw_cards fill s 0 0).1 = []
      ∧ (draw_cards fill s 0 n).2.1.cards.length + n
          = s.cards.length + 52 * s.num_decks * (draw_cards fill s 0 n).2.2
      ∧ (s.cards.length < n → 1 ≤ (draw_cards fill s 0 n).2.2) := by
  have hD : 1 ≤ 52 * s.num_decks := by
    have := Nat.mul_le_mul_left 52 hdecks
    omega
  exact ⟨draw_cards_length fill n s 0, rfl,
    draw_cards_count fill (52 * s.num_decks) hD hfill n s 0,
    draw_cards_refill fill n s 0⟩

/-- A fresh single-deck shoe drained for 60 cards, the concrete
instance used below: its drawn cards, final shoe and refill count. -/
def demo_draw : List Card × Shoe × Nat :=
  draw_cards (fun _ => full_deck 1) ⟨1, full_deck 1⟩ 0 60

/-- C9 witness: a freshly filled single-deck shoe asked for 60 cards
hands out 60 cards, refills once and keeps 44. -/
theorem shoe_draw_spec_witness :
    demo_draw.1.length = 60
      ∧ (draw_cards (fun _ => full_deck 1) ⟨1, full_deck 1⟩ 0 0).1 = []
      ∧ demo_draw.2.1.cards.length + 60
          = (full_deck 1).length + 52 * 1 * demo_draw.2.2
      ∧ ((full_deck 1).length < 60 → 1 ≤ demo_draw.2.2) :=
  shoe_draw_spec (fun _ => full_deck 1) ⟨1, full_deck 1⟩ 60 (by decide)
    (fun _ => rfl)

/-- C9 counterexample: after drawing 60 cards from a fresh single-deck
shoe exactly one refill is triggered, and the remaining count is 44,
not `deck_count × 52 × refills − n = 52 × 1 − 60`: the claimed formula
omits the cards that remained before the draw. -/
theorem shoe_draw_formula_counterexample :
    demo_draw.2.2 = 1
      ∧ (demo_draw.2.1.cards.length : Int)
          ≠ 1 * 52 * (demo_draw.2.2 : Int) - 60 := by
  constructor
  · decide
  · decide
